import Mathlib

set_option linter.unreachableTactic false
set_option linter.unusedTactic false

/-!
# Verification of the Property-AI-Agent orchestration layer

Shallow embedding of the repository's flow controller (`main.py`), the Retell
voice-call tools (`tools/retell_tools.py`) and the TinyFish extraction tool
(`tools/tinyfish_tools.py`).

Modelling conventions:
* Parsed JSON documents are represented by the inductive `JVal`.  JSON numbers
  are modelled as integers; documents containing fractional or exponent
  numerals are outside the model (no claim exercises them).
* Python exceptions are modelled by `PyExc` (message plus a flag recording
  whether the exception belongs to the HTTP library's `RequestException`
  class).  Fallible code returns `Except PyExc _`.
* Vendor clients (the Retell SDK, the TinyFish HTTP endpoint) are external
  collaborators; their behaviour is an oracle parameter: either they raise an
  exception or return a response value.
* Real time is idealised: each iteration of the polling loop in
  `get_call_result` advances the clock by exactly the 5-second sleep, and
  vendor calls take zero time.
-/

namespace PropertyAI

/-- A parsed JSON value (the result of Python's `json.loads`).  Object fields
keep insertion order, as Python dicts do. -/
inductive JVal where
  | null : JVal
  | bool : Bool → JVal
  | num : Int → JVal
  | str : String → JVal
  | arr : List JVal → JVal
  | obj : List (String × JVal) → JVal

/-- A Python exception: its `str()` message and whether it is an instance of
`requests.exceptions.RequestException`. -/
structure PyExc where
  msg : String
  isReqExc : Bool
deriving Repr, DecidableEq

def typeErrorExc : PyExc := ⟨"TypeError", false⟩
def keyErrorExc : PyExc := ⟨"KeyError", false⟩
def attributeErrorExc : PyExc := ⟨"AttributeError", false⟩
def jsonDecodeErrorExc : PyExc := ⟨"JSONDecodeError", false⟩

/-- First binding of a key in a JSON object's field list (Python `dict`
lookup; parsed objects never carry duplicate keys, see `objInsert`). -/
def lookupField (fs : List (String × JVal)) (k : String) : Option JVal :=
  match fs.find? (fun kv => kv.1 == k) with
  | some kv => some kv.2
  | none => none

/-- `d[k] = v` on a Python dict: replace in place when the key exists
(keeping its position), otherwise append. -/
def objInsert (fs : List (String × JVal)) (k : String) (v : JVal) :
    List (String × JVal) :=
  if fs.any (fun kv => kv.1 == k) then
    fs.map (fun kv => if kv.1 == k then (k, v) else kv)
  else fs ++ [(k, v)]

/- Structural equality on `JVal`, modelling Python `==` between values
decoded from JSON.  (Dict comparison is order-sensitive here, an adequate
approximation for the scalar comparisons the code performs.) -/
mutual
def jvalBeq : JVal → JVal → Bool
  | .null, .null => true
  | .bool x, .bool y => x == y
  | .num x, .num y => x == y
  | .str x, .str y => x == y
  | .arr xs, .arr ys => jvalBeqList xs ys
  | .obj xs, .obj ys => jvalBeqFields xs ys
  | _, _ => false

def jvalBeqList : List JVal → List JVal → Bool
  | [], [] => true
  | x :: xs, y :: ys => jvalBeq x y && jvalBeqList xs ys
  | _, _ => false

def jvalBeqFields : List (String × JVal) → List (String × JVal) → Bool
  | [], [] => true
  | (k1, v1) :: xs, (k2, v2) :: ys =>
      k1 == k2 && jvalBeq v1 v2 && jvalBeqFields xs ys
  | _, _ => false
end

/-- Substring test on character lists (Python `needle in haystack` for
strings). -/
def isSubstrL (needle : List Char) : List Char → Bool
  | [] => needle.isEmpty
  | c :: cs => needle.isPrefixOf (c :: cs) || isSubstrL needle cs

def isSubstr (needle hay : String) : Bool := isSubstrL needle.toList hay.toList

/-- Python `item in container` on JSON-decoded values: list membership via
`==`, dict key containment, substring test for strings, `TypeError`
otherwise. -/
def pyMem (item container : JVal) : Except PyExc Bool :=
  match container with
  | .arr xs => .ok (xs.any (jvalBeq item))
  | .obj fs =>
    match item with
    | .str s => .ok (fs.any (fun kv => kv.1 == s))
    | .arr _ => .error typeErrorExc   -- unhashable type
    | .obj _ => .error typeErrorExc   -- unhashable type
    | _ => .ok false                  -- hashable, but dict keys are strings
  | .str t =>
    match item with
    | .str s => .ok (isSubstr s t)
    | _ => .error typeErrorExc
  | _ => .error typeErrorExc

/-- Python `container[k]` with a string key. -/
def pyIndex (container : JVal) (k : String) : Except PyExc JVal :=
  match container with
  | .obj fs =>
    match lookupField fs k with
    | some v => .ok v
    | none => .error keyErrorExc
  | _ => .error typeErrorExc

/-- Python `container[k] = v` with a string key. -/
def pySetItem (container : JVal) (k : String) (v : JVal) : Except PyExc JVal :=
  match container with
  | .obj fs => .ok (.obj (objInsert fs k v))
  | _ => .error typeErrorExc

/-- Python `len(container)`. -/
def pyLen (container : JVal) : Except PyExc Nat :=
  match container with
  | .arr xs => .ok xs.length
  | .obj fs => .ok fs.length
  | .str s => .ok s.length
  | _ => .error typeErrorExc

/-- Python iteration `for x in container`: list elements, string characters,
dict keys; `TypeError` otherwise. -/
def pyElems (container : JVal) : Except PyExc (List JVal) :=
  match container with
  | .arr xs => .ok xs
  | .str s => .ok (s.toList.map (fun c => .str (String.singleton c)))
  | .obj fs => .ok (fs.map (fun kv => .str kv.1))
  | _ => .error typeErrorExc

/-- Escape one character the way `json.dumps` does (common cases; exotic
control characters and non-ASCII escaping are outside the model — no string
handled by the flow contains them). -/
def escChar (c : Char) : String :=
  if c = '"' then "\\\""
  else if c = '\\' then "\\\\"
  else if c = '\n' then "\\n"
  else if c = '\t' then "\\t"
  else if c = '\r' then "\\r"
  else String.singleton c

def escapeJson (s : String) : String := String.join (s.toList.map escChar)

/- `json.dumps` with Python's default separators `", "` and `": "`. -/
mutual
def dumps : JVal → String
  | .null => "null"
  | .bool b => if b then "true" else "false"
  | .num i => toString i
  | .str s => "\"" ++ escapeJson s ++ "\""
  | .arr xs => "[" ++ dumpsList xs ++ "]"
  | .obj fs => "\x7b" ++ dumpsFields fs ++ "\x7d"

def dumpsList : List JVal → String
  | [] => ""
  | [x] => dumps x
  | x :: y :: xs => dumps x ++ ", " ++ dumpsList (y :: xs)

def dumpsFields : List (String × JVal) → String
  | [] => ""
  | [(k, v)] => "\"" ++ escapeJson k ++ "\": " ++ dumps v
  | (k, v) :: f :: fs =>
      "\"" ++ escapeJson k ++ "\": " ++ dumps v ++ ", " ++ dumpsFields (f :: fs)
end

/- Python `repr` of a JSON-decoded value (string escaping inside `repr` is
not modelled; the strings involved are plain). -/
mutual
def pyRepr : JVal → String
  | .null => "None"
  | .bool b => if b then "True" else "False"
  | .num i => toString i
  | .str s => "'" ++ s ++ "'"
  | .arr xs => "[" ++ pyReprList xs ++ "]"
  | .obj fs => "\x7b" ++ pyReprFields fs ++ "\x7d"

def pyReprList : List JVal → String
  | [] => ""
  | [x] => pyRepr x
  | x :: y :: xs => pyRepr x ++ ", " ++ pyReprList (y :: xs)

def pyReprFields : List (String × JVal) → String
  | [] => ""
  | [(k, v)] => "'" ++ k ++ "': " ++ pyRepr v
  | (k, v) :: f :: fs => "'" ++ k ++ "': " ++ pyRepr v ++ ", " ++ pyReprFields (f :: fs)
end

/-- Python `str` of a JSON-decoded value (`str` of a string is the string
itself; containers render via `repr`). -/
def pyStr : JVal → String
  | .str s => s
  | v => pyRepr v

-- ===================== json.loads =====================

def isWsChar (c : Char) : Bool := c == ' ' || c == '\n' || c == '\t' || c == '\r'

def skipWs : List Char → List Char
  | [] => []
  | c :: cs => if isWsChar c then skipWs cs else c :: cs

/-- Scan the character content of a JSON string literal after its opening
quote.  Supports the common escapes; `\u` sequences are outside the model. -/
def scanStr : List Char → Option (List Char × List Char)
  | [] => none
  | '"' :: rest => some ([], rest)
  | '\\' :: e :: rest =>
    match (if e = '"' then some '"'
           else if e = '\\' then some '\\'
           else if e = '/' then some '/'
           else if e = 'n' then some '\n'
           else if e = 't' then some '\t'
           else if e = 'r' then some '\r'
           else none) with
    | some c =>
      match scanStr rest with
      | some (cs, rem) => some (c :: cs, rem)
      | none => none
    | none => none
  | '\\' :: [] => none
  | c :: rest =>
    match scanStr rest with
    | some (cs, rem) => some (c :: cs, rem)
    | none => none

def takeDigits : List Char → (List Char × List Char)
  | [] => ([], [])
  | c :: cs =>
    if c.isDigit then
      let (ds, rest) := takeDigits cs
      (c :: ds, rest)
    else ([], c :: cs)

def digitsToNat (ds : List Char) : Nat :=
  ds.foldl (fun acc c => acc * 10 + (c.toNat - '0'.toNat)) 0

/-- Scan a JSON integer numeral.  Fractional and exponent numerals are
outside the model and are rejected. -/
def scanNum (cs : List Char) : Option (Int × List Char) :=
  let (neg, cs') := match cs with
    | '-' :: rest => (true, rest)
    | _ => (false, cs)
  match takeDigits cs' with
  | ([], _) => none
  | (ds, rest) =>
    match rest with
    | '.' :: _ => none
    | 'e' :: _ => none
    | 'E' :: _ => none
    | _ =>
      let n : Int := Int.ofNat (digitsToNat ds)
      some (if neg then -n else n, rest)

/-- Parser modes: a single value, the items of an array after `[`, or the
members of an object after `{` (with the fields accumulated so far). -/
inductive PMode where
  | val : PMode
  | arrItems : List JVal → PMode
  | objItems : List (String × JVal) → PMode

/-- Fuel-bounded recursive-descent JSON parser (`json.loads`).  Every
recursive call consumes at least one input character, so fuel
`input length + 2` suffices. -/
def parseF : Nat → PMode → List Char → Option (JVal × List Char)
  | 0, _, _ => none
  | n + 1, .val, cs =>
    match skipWs cs with
    | [] => none
    | '{' :: rest =>
      (match skipWs rest with
       | '}' :: rem => some (.obj [], rem)
       | _ => parseF n (.objItems []) rest)
    | '[' :: rest =>
      (match skipWs rest with
       | ']' :: rem => some (.arr [], rem)
       | _ => parseF n (.arrItems []) rest)
    | '"' :: rest =>
      (match scanStr rest with
       | some (cs', rem) => some (.str (String.mk cs'), rem)
       | none => none)
    | 't' :: 'r' :: 'u' :: 'e' :: rest => some (.bool true, rest)
    | 'f' :: 'a' :: 'l' :: 's' :: 'e' :: rest => some (.bool false, rest)
    | 'n' :: 'u' :: 'l' :: 'l' :: rest => some (.null, rest)
    | c :: rest =>
      if c.isDigit || c == '-' then
        (match scanNum (c :: rest) with
         | some (i, rem) => some (.num i, rem)
         | none => none)
      else none
  | n + 1, .arrItems acc, cs =>
    match parseF n .val cs with
    | none => none
    | some (v, rest) =>
      match skipWs rest with
      | ',' :: rest' => parseF n (.arrItems (acc ++ [v])) rest'
      | ']' :: rem => some (.arr (acc ++ [v]), rem)
      | _ => none
  | n + 1, .objItems acc, cs =>
    match skipWs cs with
    | '"' :: rest =>
      (match scanStr rest with
       | none => none
       | some (kcs, rest1) =>
         match skipWs rest1 with
         | ':' :: rest2 =>
           (match parseF n .val rest2 with
            | none => none
            | some (v, rest3) =>
              let acc' := objInsert acc (String.mk kcs) v
              match skipWs rest3 with
              | ',' :: rest4 => parseF n (.objItems acc') rest4
              | '}' :: rem => some (.obj acc', rem)
              | _ => none)
         | _ => none)
    | _ => none

/-- `json.loads`: parse a complete document, requiring the remainder to be
whitespace only. -/
def loads (s : String) : Option JVal :=
  match parseF (s.length + 2) .val s.toList with
  | some (v, rest) => if (skipWs rest).isEmpty then some v else none
  | none => none

-- ===================== Flow controller (main.py) =====================

/-- `SearchCriteria` (main.py).  `max_price` is `Optional[float]` in the
source; it is modelled as an integer — it only flows into the research query
string and no claim depends on float semantics. -/
structure SearchCriteria where
  location : String
  property_type : String := "apartment"
  bedrooms : Option Int := none
  bathrooms : Option Int := none
  max_price : Option Int := none
  rent_frequency : String := "monthly"
  additional_requirements : Option String := none
deriving Repr, DecidableEq

/-- `RealEstateState` (main.py).  `approved_property_ids` is declared
`List[str]` but is assigned the raw result of `json.loads` without pydantic
re-validation (`validate_assignment` is off), so it is modelled as an
arbitrary JSON value. -/
structure RealEstateState where
  search_criteria : Option SearchCriteria := none
  approved_property_ids : JVal := .arr []
  retry_count : Nat := 0
  research_results : Option String := none
  filtered_research_results : Option String := none
  location_results : Option String := none
  call_results : Option String := none
  properties_found : Nat := 0
  properties_approved : Nat := 0

def initialState : RealEstateState := {}

/-- `initialize_search`: store the criteria in the state. -/
def initialize_search (s : RealEstateState) (c : SearchCriteria) :
    RealEstateState :=
  { s with search_criteria := some c }

/-- The parse-and-select prefix shared by the `try` blocks of `run_research`
and `filter_approved`: parse the document, pick the key
(`"properties"` when the string "properties" is `in` the parsed value, else
`"listings"`), and if the key is present index it.  Returns the parsed
document together with the selected key and its value (`none` when the key is
absent); any Python exception on the way is propagated. -/
def parseKeyed (raw : String) : Except PyExc (JVal × Option (String × JVal)) :=
  match loads raw with
  | none => .error jsonDecodeErrorExc              -- json.loads raised
  | some data =>
    match pyMem (.str "properties") data with
    | .error e => .error e                         -- `in` raised TypeError
    | .ok hasProp =>
      let key := if hasProp then "properties" else "listings"
      match pyMem (.str key) data with
      | .error e => .error e
      | .ok false => .ok (data, none)              -- key absent
      | .ok true =>
        match pyIndex data key with
        | .error e => .error e
        | .ok v => .ok (data, some (key, v))

/-- The `try` block of `run_research`: the length of the keyed value.  Any
raised exception or an absent key leaves the found-count untouched
(`none`). -/
def countOf (raw : String) : Option Nat :=
  match parseKeyed raw with
  | .error _ => none
  | .ok (_, none) => none
  | .ok (_, some (_, v)) =>
    match pyLen v with
    | .error _ => none                             -- len() raised TypeError
    | .ok n => some n

/-- `run_research`: the crew output `crewRaw` is an oracle parameter (the
Research crew is an external collaborator).  Building the query string reads
`search_criteria`; on `None` the attribute access raises before any state
write, so the step leaves the state unchanged (the flow aborts). -/
def run_research (s : RealEstateState) (crewRaw : String) : RealEstateState :=
  match s.search_criteria with
  | none => s
  | some _ =>
    let s1 := { s with research_results := some crewRaw }
    match countOf crewRaw with
    | some n => { s1 with properties_found := n }
    | none => s1

/-- The list comprehension in `filter_approved`:
`[p for p in data[key] if p.get("id") in approved_ids]`, evaluated left to
right; a non-dict entry raises `AttributeError` on `.get`. -/
def filterElems (approved : JVal) : List JVal → Except PyExc (List JVal)
  | [] => .ok []
  | p :: ps =>
    match p with
    | .obj fs =>
      -- dict.get returns None both for an absent key and for a JSON null
      let idv := (lookupField fs "id").getD .null
      match pyMem idv approved with
      | .error e => .error e
      | .ok keep =>
        match filterElems approved ps with
        | .error e => .error e
        | .ok rest => .ok (if keep then p :: rest else rest)
    | _ => .error attributeErrorExc

/-- The second `try` block of `filter_approved`: parse `research_results`,
filter the listing list to approved ids, and re-serialize.  Returns the new
approved-count (`none` when the key is absent) and the serialized payload. -/
def filterAttempt (approved : JVal) (raw : String) :
    Except PyExc (Option Nat × String) :=
  match parseKeyed raw with
  | .error e => .error e
  | .ok (data, none) => .ok (none, dumps data)
  | .ok (data, some (key, v)) =>
    match pyElems v with
    | .error e => .error e
    | .ok elems =>
      match filterElems approved elems with
      | .error e => .error e
      | .ok kept =>
        match pySetItem data key (.arr kept) with
        | .error e => .error e
        | .ok data2 => .ok (some kept.length, dumps data2)

/-- The second half of `filter_approved`, after the approved ids were
stored: recompute the approved listing payload; on any exception fall back to
the unfiltered `research_results` (on a `None` document, `json.loads(None)`
raises `TypeError` and the fallback stores the raw value `None` again). -/
def filterStage2 (s1 : RealEstateState) : RealEstateState :=
  match s1.research_results with
  | none => { s1 with filtered_research_results := none }
  | some raw =>
    match filterAttempt s1.approved_property_ids raw with
    | .ok (some n, out) =>
        { s1 with properties_approved := n, filtered_research_results := some out }
    | .ok (none, out) => { s1 with filtered_research_results := some out }
    | .error _ => { s1 with filtered_research_results := some raw }

/-- `filter_approved`: parse the human feedback into approved ids (empty list
on parse failure), then recompute the approved listing payload. -/
def filter_approved (s : RealEstateState) (feedback : String) :
    RealEstateState :=
  filterStage2
    (match loads feedback with
     | some ids => { s with approved_property_ids := ids }
     | none => { s with approved_property_ids := .arr [] })

/-- `handle_retry`: bump the retry counter; nothing else is touched. -/
def handle_retry (s : RealEstateState) : RealEstateState :=
  { s with retry_count := s.retry_count + 1 }

/-- Result of `run_parallel_crews`: the updated state plus whether each crew
was kicked off. -/
structure ParallelOutcome where
  state : RealEstateState
  invokedCall : Bool
  invokedLocation : Bool

/-- `run_parallel_crews`: skip both crews when the approved count is zero;
otherwise run both (their raw outputs are oracle parameters) and record the
results. -/
def run_parallel_crews (s : RealEstateState) (callRaw locRaw : String) :
    ParallelOutcome :=
  if s.properties_approved = 0 then ⟨s, false, false⟩
  else
    ⟨{ s with call_results := some callRaw, location_results := some locRaw },
      true, true⟩

def optStrJ : Option String → JVal
  | some s => .str s
  | none => .null

def optIntJ : Option Int → JVal
  | some i => .num i
  | none => .null

/-- `SearchCriteria.model_dump()` as a JSON value. -/
def criteriaDump (c : SearchCriteria) : JVal :=
  .obj [("location", .str c.location),
        ("property_type", .str c.property_type),
        ("bedrooms", optIntJ c.bedrooms),
        ("bathrooms", optIntJ c.bathrooms),
        ("max_price", optIntJ c.max_price),
        ("rent_frequency", .str c.rent_frequency),
        ("additional_requirements", optStrJ c.additional_requirements)]

/-- `compile_final_report`: assemble the unified report (written to
`output/unified_report.json`; the file write is an external effect).  With no
stored criteria the `model_dump` attribute access raises; the state is never
mutated by this step. -/
def compile_final_report (s : RealEstateState) :
    RealEstateState × Except PyExc JVal :=
  (s,
    match s.search_criteria with
    | none => .error attributeErrorExc
    | some c =>
      .ok (.obj
        [("search_criteria", criteriaDump c),
         ("summary", .obj
           [("properties_found", .num (Int.ofNat s.properties_found)),
            ("properties_approved", .num (Int.ofNat s.properties_approved)),
            ("retries", .num (Int.ofNat s.retry_count))]),
         ("approved_property_ids", s.approved_property_ids),
         ("phases", .obj
           [("research", optStrJ s.research_results),
            ("calls", optStrJ s.call_results),
            ("location", optStrJ s.location_results)])]))

-- ===================== Flow step sequences =====================

/-- One step of the flow, with the external inputs (criteria, crew outputs,
human feedback) recorded in the label. -/
inductive StepLabel where
  | init : SearchCriteria → StepLabel
  | research : String → StepLabel
  | filter : String → StepLabel
  | retry : StepLabel
  | parallel : String → String → StepLabel
  | compile : StepLabel

def applyStep (s : RealEstateState) : StepLabel → RealEstateState
  | .init c => initialize_search s c
  | .research raw => run_research s raw
  | .filter fb => filter_approved s fb
  | .retry => handle_retry s
  | .parallel c l => (run_parallel_crews s c l).state
  | .compile => (compile_final_report s).1

def runSteps (s : RealEstateState) (ls : List StepLabel) : RealEstateState :=
  ls.foldl applyStep s

-- ===================== Retell call tools (retell_tools.py) =====================

/-- Outcome of one vendor-client operation: either an exception or a
response value. -/
inductive VendorCall (α : Type) where
  | raises : PyExc → VendorCall α
  | returns : α → VendorCall α

def runVendor {α : Type} : VendorCall α → Except PyExc α
  | .raises e => .error e
  | .returns a => .ok a

/-- The module-level environment configuration read by the Retell tools. -/
structure RetellEnv where
  retellInstalled : Bool
  apiKey : Option String
  fromNumber : Option String
  inspectorAgentId : Option String
  negotiatorAgentId : Option String

/-- Python truthiness of an environment variable: unset and empty are both
falsy. -/
def envTruthy : Option String → Bool
  | none => false
  | some s => !s.isEmpty

/-- `_get_retell_client`: raises `ImportError` when the SDK is absent and
`ValueError` when the API key is unset. -/
def getRetellClient (env : RetellEnv) : Except PyExc Unit :=
  if !env.retellInstalled then
    .error ⟨"retell-sdk not installed. Run: pip install retell-sdk", false⟩
  else if !envTruthy env.apiKey then
    .error ⟨"RETELL_API_KEY environment variable not set", false⟩
  else .ok ()

/-- Response of `client.call.create_phone_call` (the SDK returns a typed
object carrying at least an id and a status). -/
structure CreateCallResp where
  call_id : String
  call_status : String

/-- `except Exception` around a tool body: every raised exception is mapped
to a failure payload; nothing propagates. -/
def catchAll (body : Except PyExc JVal) (handler : PyExc → JVal) :
    Except PyExc JVal :=
  match body with
  | .ok v => .ok v
  | .error e => .ok (handler e)

/-- `make_inspection_call`.  The dynamic variables and metadata passed to the
vendor do not influence the tool's return value; the vendor's behaviour is
the oracle `vendor`. -/
def make_inspection_call (env : RetellEnv) (vendor : VendorCall CreateCallResp)
    (to_number property_id _property_address _property_price _user_questions :
      String)
    (_contact_name : Option String) : Except PyExc JVal :=
  catchAll
    (match getRetellClient env with
     | .error e => .error e
     | .ok _ =>
       if !envTruthy env.fromNumber then
         .ok (.obj [("success", .bool false),
                    ("error", .str "RETELL_FROM_NUMBER environment variable not set")])
       else if !envTruthy env.inspectorAgentId then
         .ok (.obj [("success", .bool false),
                    ("error", .str "RETELL_INSPECTOR_AGENT_ID environment variable not set")])
       else
         match runVendor vendor with
         | .error e => .error e
         | .ok resp =>
           .ok (.obj [("success", .bool true),
                      ("call_id", .str resp.call_id),
                      ("call_status", .str resp.call_status),
                      ("property_id", .str property_id),
                      ("to_number", .str to_number),
                      ("message", .str "Inspection call initiated successfully")]))
    (fun e =>
      .obj [("success", .bool false),
            ("error", .str e.msg),
            ("property_id", .str property_id),
            ("to_number", .str to_number)])

/-- `make_negotiation_call`: same contract with the negotiator agent id. -/
def make_negotiation_call (env : RetellEnv) (vendor : VendorCall CreateCallResp)
    (to_number property_id _property_address _estimated_value _investor_budget :
      String)
    (_contact_name : Option String) : Except PyExc JVal :=
  catchAll
    (match getRetellClient env with
     | .error e => .error e
     | .ok _ =>
       if !envTruthy env.fromNumber then
         .ok (.obj [("success", .bool false),
                    ("error", .str "RETELL_FROM_NUMBER environment variable not set")])
       else if !envTruthy env.negotiatorAgentId then
         .ok (.obj [("success", .bool false),
                    ("error", .str "RETELL_NEGOTIATOR_AGENT_ID environment variable not set")])
       else
         match runVendor vendor with
         | .error e => .error e
         | .ok resp =>
           .ok (.obj [("success", .bool true),
                      ("call_id", .str resp.call_id),
                      ("call_status", .str resp.call_status),
                      ("property_id", .str property_id),
                      ("to_number", .str to_number),
                      ("message", .str "Negotiation call initiated successfully")]))
    (fun e =>
      .obj [("success", .bool false),
            ("error", .str e.msg),
            ("property_id", .str property_id),
            ("to_number", .str to_number)])

/-- One utterance of a Retell transcript; `dict.get` defaults apply
(`role` → "unknown", `content` → "", `timestamp` → 0). -/
structure Utterance where
  role : Option String
  content : Option String
  timestamp : Option Int

/-- Call object returned by `client.call.retrieve`.  An absent or `None`
transcript is the empty list (both are falsy in the `hasattr`/truthiness
guard); `getattr` defaults give the `Option`/`JVal` fields. -/
structure CallData where
  call_status : String
  transcript : List Utterance
  start_timestamp : Option Int
  end_timestamp : Option Int
  recording_url : Option String
  metadata : JVal
  collected_dynamic_variables : JVal
  disconnection_reason : Option String

def isTerminal (status : String) : Bool :=
  status == "ended" || status == "error" || status == "failed"

/-- Python `f"{n:02d}"` (zero-pad to width two). -/
def pad2 (n : Int) : String :=
  if 0 ≤ n && n ≤ 9 then "0" ++ toString n else toString n

/-- `[mm:ss] speaker: text` formatting of one utterance (`//` and `%` are
Python floor division and modulus). -/
def fmtUtterance (u : Utterance) : String :=
  let speaker := u.role.getD "unknown"
  let content := u.content.getD ""
  let ts := u.timestamp.getD 0
  let minutes := Int.fdiv ts 60000
  let seconds := Int.fdiv (ts % 60000) 1000
  "[" ++ pad2 minutes ++ ":" ++ pad2 seconds ++ "] " ++ speaker ++ ": " ++ content

/-- The success payload of `get_call_result` once a terminal status was
observed. -/
def successCallPayload (call_id : String) (cd : CallData) : JVal :=
  let lines := cd.transcript.map fmtUtterance
  let transcriptVal : JVal :=
    if lines.isEmpty then .null
    else .str (String.intercalate "\n" lines)
  let durationVal : JVal :=
    match cd.start_timestamp, cd.end_timestamp with
    | some st, some en =>
      -- `if call_data.start_timestamp and call_data.end_timestamp:` — zero is falsy
      if st ≠ 0 && en ≠ 0 then .num (Int.fdiv (en - st) 1000) else .null
    | _, _ => .null
  .obj [("success", .bool true),
        ("call_id", .str call_id),
        ("call_status", .str cd.call_status),
        ("duration_seconds", durationVal),
        ("transcript", transcriptVal),
        ("recording_url", optStrJ cd.recording_url),
        ("metadata", cd.metadata),
        ("collected_variables", cd.collected_dynamic_variables),
        ("disconnection_reason", optStrJ cd.disconnection_reason)]

def timeoutPayload (call_id : String) (maxWait : Int) (lastStatus : String) :
    JVal :=
  .obj [("success", .bool false),
        ("call_id", .str call_id),
        ("error", .str ("Timeout waiting for call completion after "
                          ++ toString maxWait ++ "s")),
        ("last_status", .str lastStatus)]

/-- The `poll_interval` constant of `get_call_result` (seconds). -/
def poll_interval : Int := 5

/-- The polling loop of `get_call_result`.  Poll `n` happens at idealised
time `5 * n`; the timeout check compares the elapsed time against the wait
budget after the terminal-status check, exactly as the source does.  `fuel`
only bounds the recursion; `get_call_result` supplies enough fuel for the
budget check to fire first (see `retellLoop_fuel_irrelevant`-style lemmas
below), so the fuel-exhaustion branch is unreachable. -/
def retellLoop (vendor : Nat → VendorCall CallData) (call_id : String)
    (maxWait : Int) : Nat → Nat → Except PyExc JVal
  | 0, _ =>
    .ok (.obj [("success", .bool false), ("call_id", .str call_id),
               ("error", .str "poll fuel exhausted")])
  | fuel + 1, n =>
    match runVendor (vendor n) with
    | .error e => .error e
    | .ok cd =>
      if isTerminal cd.call_status then
        .ok (successCallPayload call_id cd)
      else if maxWait ≤ poll_interval * (n : Int) then
        .ok (timeoutPayload call_id maxWait cd.call_status)
      else
        retellLoop vendor call_id maxWait fuel (n + 1)

/-- Number of the poll at which the timeout check can first fire:
`⌈maxWait / 5⌉` (and 0 for a non-positive budget). -/
def numPolls (maxWait : Int) : Nat := (maxWait.toNat + 4) / 5

/-- `get_call_result`: poll the vendor every 5 seconds until a terminal
status or the wait budget runs out; wrap every exception into a failure
payload. -/
def get_call_result (env : RetellEnv) (vendor : Nat → VendorCall CallData)
    (call_id : String) (maxWait : Int) : Except PyExc JVal :=
  catchAll
    (match getRetellClient env with
     | .error e => .error e
     | .ok _ => retellLoop vendor call_id maxWait (numPolls maxWait + 1) 0)
    (fun e =>
      .obj [("success", .bool false),
            ("call_id", .str call_id),
            ("error", .str e.msg)])

/-- `check_call_status`: one non-blocking retrieve, classified into
progress/completed/failed booleans. -/
def check_call_status (env : RetellEnv) (vendor : VendorCall CallData)
    (call_id : String) : Except PyExc JVal :=
  catchAll
    (match getRetellClient env with
     | .error e => .error e
     | .ok _ =>
       match runVendor vendor with
       | .error e => .error e
       | .ok cd =>
         .ok (.obj [("success", .bool true),
                    ("call_id", .str call_id),
                    ("call_status", .str cd.call_status),
                    ("in_progress", .bool (cd.call_status == "registered"
                                            || cd.call_status == "ongoing")),
                    ("completed", .bool (cd.call_status == "ended")),
                    ("failed", .bool (cd.call_status == "error"
                                       || cd.call_status == "failed"))]))
    (fun e =>
      .obj [("success", .bool false),
            ("call_id", .str call_id),
            ("error", .str e.msg)])

-- ===================== TinyFish extraction tool (tinyfish_tools.py) =====================

/-- `data.get("status", "")` but as a `JVal` (the decoded body may map
`status` to any JSON value). -/
def tfStatus (fs : List (String × JVal)) : JVal :=
  (lookupField fs "status").getD (.str "")

/-- Python `x == "lit"` where `x` is a decoded JSON value. -/
def jvalIsStrEq (v : JVal) (lit : String) : Bool :=
  match v with
  | .str s => s == lit
  | _ => false

/-- The `FAILED` branch's message extraction:
`error_info = data.get("error", {})`, then `.get("message", "Unknown error")`
when it is a dict, else `str(error_info)`. -/
def tfErrMsg (fs : List (String × JVal)) : String :=
  match (lookupField fs "error").getD (.obj []) with
  | .obj efs =>
    match lookupField efs "message" with
    | some m => pyStr m
    | none => "Unknown error"
  | other => pyStr other

/-- `TinyFishExtractorTool._run`.  The oracle `vendor` stands for the
combination of `requests.post`, `raise_for_status` and `response.json()`:
it raises an exception (network/HTTP/JSON-decode failures carry
`isReqExc = true`, since those are `RequestException`s) or returns the
decoded body.  Only `RequestException` is caught by the tool, so any other
exception — in particular the `AttributeError` raised by `data.get` when the
decoded body is not an object — propagates. -/
def tinyFishRun (apiKey : Option String) (vendor : VendorCall JVal)
    (url goal : String) (use_stealth : Bool) (proxy_country : Option String) :
    Except PyExc JVal :=
  if !envTruthy apiKey then
    .ok (.obj [("success", .bool false),
               ("error", .str "TINYFISH_API_KEY environment variable is not set")])
  else
    -- request body (sent to the vendor; kept for fidelity)
    let body0 : JVal := .obj [("url", .str url), ("goal", .str goal)]
    let body1 := if use_stealth
      then .obj (objInsert [("url", .str url), ("goal", .str goal)]
                  "browser_profile" (.str "stealth"))
      else body0
    let _body := match proxy_country with
      | some cc =>
        if cc.isEmpty then body1
        else match pySetItem body1 "proxy_config"
            (.obj [("enabled", .bool true), ("country_code", .str cc.toUpper)]) with
          | .ok b => b
          | .error _ => body1
      | none => body1
    match vendor with
    | .raises e =>
      if e.isReqExc then
        .ok (.obj [("success", .bool false),
                   ("error", .str ("TinyFish API request failed: " ++ e.msg)),
                   ("url", .str url)])
      else .error e
    | .returns data =>
      match data with
      | .obj fs =>
        let status := tfStatus fs
        if jvalIsStrEq status "COMPLETED" then
          match lookupField fs "result" with
          | some .null =>
            .ok (.obj [("success", .bool false),
                       ("error", .str "Run completed but no result data returned"),
                       ("url", .str url)])
          | none =>
            .ok (.obj [("success", .bool false),
                       ("error", .str "Run completed but no result data returned"),
                       ("url", .str url)])
          | some r =>
            .ok (.obj [("success", .bool true), ("data", r), ("url", .str url)])
        else if jvalIsStrEq status "FAILED" then
          .ok (.obj [("success", .bool false),
                     ("error", .str ("TinyFish run failed: " ++ tfErrMsg fs)),
                     ("url", .str url)])
        else
          .ok (.obj [("success", .bool false),
                     ("error", .str ("Unexpected run status: " ++ pyStr status)),
                     ("url", .str url)])
      | _ =>
        -- `data.get` on a non-dict raises AttributeError, which is not a
        -- RequestException and therefore escapes the tool
        .error ⟨"AttributeError: object has no attribute get", false⟩

-- ===================== Shared payload predicates =====================

/-- Field lookup on a JSON payload (none when the payload is not an
object). -/
def jLookup (p : JVal) (k : String) : Option JVal :=
  match p with
  | .obj fs => lookupField fs k
  | _ => none

/-- The tool call returned (did not raise) and its payload is a JSON object
with a boolean `success` field. -/
def isOkPayload (r : Except PyExc JVal) : Prop :=
  ∃ p b, r = .ok p ∧ jLookup p "success" = some (.bool b)

/-- The tool call returned a JSON failure object: `success=false` plus a
string `error` field. -/
def isFailurePayload (r : Except PyExc JVal) : Prop :=
  ∃ p m, r = .ok p ∧ jLookup p "success" = some (.bool false)
    ∧ jLookup p "error" = some (.str m)

-- ===================== Theorems =====================

/-- Claim C2 (confirmed): with research output
`{"properties": [{"id":"prop_001"}, {"id":"prop_002"}]}` and human approval
`["prop_001"]`, `filter_approved` sets `properties_approved` to 1 and the
filtered payload keeps only the `prop_001` entry. -/
theorem C2_filter_concrete (s : RealEstateState)
    (h : s.research_results =
      some "\x7b\"properties\": [\x7b\"id\":\"prop_001\"\x7d, \x7b\"id\":\"prop_002\"\x7d]\x7d") :
    (filter_approved s "[\"prop_001\"]").properties_approved = 1 ∧
    (filter_approved s "[\"prop_001\"]").filtered_research_results =
      some (dumps (.obj [("properties", .arr [.obj [("id", .str "prop_001")]])])) := by
  cases s with
  | mk sc ap rc rr fr lr cr pf pa =>
    cases h
    exact ⟨rfl, rfl⟩

theorem C2_filter_concrete_witness :
    (filter_approved
        { initialState with
            research_results :=
              some "\x7b\"properties\": [\x7b\"id\":\"prop_001\"\x7d, \x7b\"id\":\"prop_002\"\x7d]\x7d" }
        "[\"prop_001\"]").properties_approved = 1 ∧
    (filter_approved
        { initialState with
            research_results :=
              some "\x7b\"properties\": [\x7b\"id\":\"prop_001\"\x7d, \x7b\"id\":\"prop_002\"\x7d]\x7d" }
        "[\"prop_001\"]").filtered_research_results =
      some (dumps (.obj [("properties", .arr [.obj [("id", .str "prop_001")]])])) :=
  C2_filter_concrete _ rfl

/-- Claim C3 (confirmed): with `properties_approved = 0`,
`run_parallel_crews` invokes neither crew and returns the state unchanged; in
particular `call_results` and `location_results` stay `None`. -/
theorem C3_skip_crews (s : RealEstateState) (callRaw locRaw : String)
    (h0 : s.properties_approved = 0)
    (hc : s.call_results = none) (hl : s.location_results = none) :
    run_parallel_crews s callRaw locRaw = ⟨s, false, false⟩ ∧
    (run_parallel_crews s callRaw locRaw).state.call_results = none ∧
    (run_parallel_crews s callRaw locRaw).state.location_results = none := by
  have he : run_parallel_crews s callRaw locRaw = ⟨s, false, false⟩ := by
    unfold run_parallel_crews
    rw [h0]
    simp
  exact ⟨he, by rw [he]; exact hc, by rw [he]; exact hl⟩

theorem C3_skip_crews_witness :
    run_parallel_crews initialState "c" "l" = ⟨initialState, false, false⟩ ∧
    (run_parallel_crews initialState "c" "l").state.call_results = none ∧
    (run_parallel_crews initialState "c" "l").state.location_results = none :=
  C3_skip_crews initialState "c" "l" rfl rfl rfl

/-- Claim C8 (confirmed): `handle_retry` increments `retry_count` by exactly
one and leaves every other state field unchanged. -/
theorem C8_retry_increment (s : RealEstateState) :
    (handle_retry s).retry_count = s.retry_count + 1 ∧
    (handle_retry s).search_criteria = s.search_criteria ∧
    (handle_retry s).approved_property_ids = s.approved_property_ids ∧
    (handle_retry s).research_results = s.research_results ∧
    (handle_retry s).filtered_research_results = s.filtered_research_results ∧
    (handle_retry s).location_results = s.location_results ∧
    (handle_retry s).call_results = s.call_results ∧
    (handle_retry s).properties_found = s.properties_found ∧
    (handle_retry s).properties_approved = s.properties_approved :=
  ⟨rfl, rfl, rfl, rfl, rfl, rfl, rfl, rfl, rfl⟩

/-- Claim C7 (confirmed): malformed JSON raises out of neither `run_research`
nor `filter_approved` (both are total here because the source catches the
parse exception); the found/approved counters keep their prior values, and
`filter_approved` falls back to the raw `research_results` string. -/
theorem C7_malformed_json_swallowed :
    (∀ (s : RealEstateState) (c : SearchCriteria) (raw : String),
      s.search_criteria = some c → loads raw = none →
      (run_research s raw).properties_found = s.properties_found ∧
      (run_research s raw).properties_approved = s.properties_approved ∧
      (run_research s raw).research_results = some raw) ∧
    (∀ (s : RealEstateState) (raw feedback : String),
      s.research_results = some raw → loads raw = none →
      (filter_approved s feedback).properties_found = s.properties_found ∧
      (filter_approved s feedback).properties_approved = s.properties_approved ∧
      (filter_approved s feedback).filtered_research_results = some raw) := by
  constructor
  · intro s c raw hc hl
    unfold run_research
    rw [hc]
    have hco : countOf raw = none := by
      simp [countOf, parseKeyed, hl]
    rw [hco]
    exact ⟨rfl, rfl, rfl⟩
  · intro s raw feedback hr hl
    have hfa : ∀ a : JVal, filterAttempt a raw = .error jsonDecodeErrorExc := by
      intro a
      simp [filterAttempt, parseKeyed, hl]
    unfold filter_approved
    rcases hfb : loads feedback with _ | ids <;>
      simp [filterStage2, hfb, hr, hfa]

theorem C7_malformed_json_swallowed_witness :
    (run_research
        { initialState with search_criteria := some { location := "Lagos" } }
        "oops").properties_found = 0 ∧
    (filter_approved { initialState with research_results := some "oops" }
        "[\"x\"]").filtered_research_results = some "oops" :=
  ⟨(C7_malformed_json_swallowed.1
      { initialState with search_criteria := some { location := "Lagos" } }
      { location := "Lagos" } "oops" rfl rfl).1,
   (C7_malformed_json_swallowed.2
      { initialState with research_results := some "oops" } "oops" "[\"x\"]"
      rfl rfl).2.2⟩

-- ===================== C9 machinery =====================

/-- `noResAfterFilter seen ls` holds when no `run_research` step occurs after
a `filter_approved` step in `ls` (with `seen` recording whether a filter step
already happened).  This is exactly the ordering the flow's listener wiring
produces within a run: research is triggered only from `initialize_search`,
before the approval gate. -/
def noResAfterFilter : Bool → List StepLabel → Bool
  | _, [] => true
  | seen, .init _ :: ls => noResAfterFilter seen ls
  | seen, .research _ :: ls => !seen && noResAfterFilter seen ls
  | _, .filter _ :: ls => noResAfterFilter true ls
  | seen, .retry :: ls => noResAfterFilter seen ls
  | seen, .parallel _ _ :: ls => noResAfterFilter seen ls
  | seen, .compile :: ls => noResAfterFilter seen ls

/-- The found-count agrees with the current `research_results` document:
whenever the stored document yields a count, `properties_found` equals it.
`run_research` establishes this and no other step touches the two fields. -/
def researchConsistent (s : RealEstateState) : Prop :=
  ∀ raw n, s.research_results = some raw → countOf raw = some n →
    s.properties_found = n

lemma filterElems_length_le (a : JVal) :
    ∀ xs kept : List JVal, filterElems a xs = .ok kept →
      kept.length ≤ xs.length := by
  intro xs
  induction xs with
  | nil =>
    intro kept h
    simp only [filterElems] at h
    cases h
    simp
  | cons p ps ih =>
    intro kept h
    unfold filterElems at h
    cases p <;> try (cases h)
    case obj fs =>
      simp only at h
      cases hm : pyMem ((lookupField fs "id").getD .null) a with
      | error e => rw [hm] at h; cases h
      | ok keep =>
        rw [hm] at h
        cases hrest : filterElems a ps with
        | error e => rw [hrest] at h; cases h
        | ok rest =>
          rw [hrest] at h
          have hr := ih rest hrest
          cases h
          cases keep <;> simp <;> omega

lemma pyElems_pyLen (v : JVal) (l : List JVal) (h : pyElems v = .ok l) :
    pyLen v = .ok l.length := by
  cases v with
  | arr xs =>
    simp only [pyElems, Except.ok.injEq] at h
    subst h
    rfl
  | str s =>
    obtain ⟨cs⟩ := s
    simp only [pyElems, Except.ok.injEq] at h
    subst h
    simp only [pyLen, List.length_map]
    rfl
  | obj fs =>
    simp only [pyElems, Except.ok.injEq] at h
    subst h
    simp only [pyLen, List.length_map]
  | null => exact absurd h (by simp [pyElems])
  | bool b => exact absurd h (by simp [pyElems])
  | num i => exact absurd h (by simp [pyElems])

lemma lookupField_any (fs : List (String × JVal)) (k : String) (v : JVal)
    (h : lookupField fs k = some v) :
    fs.any (fun kv => kv.1 == k) = true := by
  unfold lookupField at h
  cases hf : fs.find? (fun kv => kv.1 == k) with
  | none => rw [hf] at h; cases h
  | some kv =>
    have h1 := List.mem_of_find?_eq_some hf
    have h2 := List.find?_some hf
    exact List.any_eq_true.mpr ⟨kv, h1, h2⟩

/-- When the filtering pass of `filter_approved` succeeds with a count, the
found-count computation on the same document succeeds with a value at least
as large (the filtered list is a sublist of the stored one). -/
lemma filterAttempt_count (a : JVal) (raw : String) (n : Nat) (out : String)
    (h : filterAttempt a raw = .ok (some n, out)) :
    ∃ m, countOf raw = some m ∧ n ≤ m := by
  unfold filterAttempt at h
  cases hp : parseKeyed raw with
  | error e => simp [hp] at h
  | ok pr =>
    obtain ⟨data, kv⟩ := pr
    cases kv with
    | none => simp [hp] at h
    | some kv2 =>
      obtain ⟨key, v⟩ := kv2
      simp only [hp] at h
      cases he : pyElems v with
      | error e => simp [he] at h
      | ok elems =>
        simp only [he] at h
        cases hke : filterElems a elems with
        | error e => simp [hke] at h
        | ok kept =>
          simp only [hke] at h
          cases hsi : pySetItem data key (.arr kept) with
          | error e => simp [hsi] at h
          | ok data2 =>
            simp only [hsi, Except.ok.injEq, Prod.mk.injEq,
              Option.some.injEq] at h
            obtain ⟨h1, h2⟩ := h
            refine ⟨elems.length, ?_, ?_⟩
            · simp [countOf, hp, pyElems_pyLen v elems he]
            · rw [← h1]
              exact filterElems_length_le a elems kept hke

lemma run_research_frame (s : RealEstateState) (raw : String) :
    (run_research s raw).properties_approved = s.properties_approved := by
  unfold run_research
  split
  · rfl
  · split <;> rfl

lemma run_research_consistent (s : RealEstateState) (raw : String)
    (hs : researchConsistent s) : researchConsistent (run_research s raw) := by
  unfold run_research
  cases hc : s.search_criteria with
  | none => exact hs
  | some c =>
    cases hco : countOf raw with
    | none =>
      intro r n hr hn
      simp only at hr
      cases hr
      rw [hco] at hn
      cases hn
    | some m =>
      intro r n hr hn
      simp only at hr
      cases hr
      rw [hco] at hn
      cases hn
      rfl

lemma filterStage2_frame (s1 : RealEstateState) :
    (filterStage2 s1).properties_found = s1.properties_found ∧
    (filterStage2 s1).research_results = s1.research_results := by
  constructor <;>
  · unfold filterStage2
    split
    · rfl
    · split <;> rfl

lemma filter_approved_frame (s : RealEstateState) (fb : String) :
    (filter_approved s fb).properties_found = s.properties_found ∧
    (filter_approved s fb).research_results = s.research_results := by
  unfold filter_approved
  rcases loads fb with _ | ids <;>
    exact (filterStage2_frame _)

lemma consistent_of_frame (s t : RealEstateState)
    (hf : t.properties_found = s.properties_found)
    (hr : t.research_results = s.research_results)
    (hs : researchConsistent s) : researchConsistent t := by
  intro raw n h1 h2
  rw [hf]
  exact hs raw n (hr ▸ h1) h2

/-- After the filtering stage, the approved count is bounded by the
(unchanged) found-count, given the state was research-consistent and started
with `approved ≤ found`. -/
lemma filterStage2_bound (s1 : RealEstateState)
    (hs : researchConsistent s1)
    (h2 : s1.properties_approved ≤ s1.properties_found) :
    (filterStage2 s1).properties_approved ≤
      (filterStage2 s1).properties_found := by
  rw [(filterStage2_frame s1).1]
  unfold filterStage2
  split
  · exact h2
  · rename_i raw hrr
    split
    · rename_i n out hat
      obtain ⟨m, hcm, hnm⟩ := filterAttempt_count _ raw n out hat
      have hfound := hs raw m hrr hcm
      simp only
      omega
    · exact h2
    · exact h2

lemma filter_approved_bound (s : RealEstateState) (fb : String)
    (hs : researchConsistent s)
    (h2 : s.properties_approved ≤ s.properties_found) :
    (filter_approved s fb).properties_approved ≤
      (filter_approved s fb).properties_found := by
  unfold filter_approved
  rcases loads fb with _ | ids <;>
    exact filterStage2_bound _ (fun raw n h1 hh => hs raw n h1 hh) h2

lemma initialize_search_consistent (s : RealEstateState) (c : SearchCriteria)
    (hs : researchConsistent s) :
    researchConsistent (initialize_search s c) :=
  consistent_of_frame s _ rfl rfl hs

lemma handle_retry_consistent (s : RealEstateState)
    (hs : researchConsistent s) : researchConsistent (handle_retry s) :=
  consistent_of_frame s _ rfl rfl hs

lemma parallel_frame (s : RealEstateState) (c l : String) :
    (run_parallel_crews s c l).state.properties_found = s.properties_found ∧
    (run_parallel_crews s c l).state.properties_approved = s.properties_approved ∧
    (run_parallel_crews s c l).state.research_results = s.research_results := by
  unfold run_parallel_crews
  split <;> exact ⟨rfl, rfl, rfl⟩

lemma run_research_found_of_zero (s : RealEstateState) (raw : String)
    (h0 : s.properties_approved = 0) :
    (run_research s raw).properties_approved = 0 := by
  rw [run_research_frame]
  exact h0

/-- Invariant carried through any step sequence in which no research step
follows a filter step: `properties_approved ≤ properties_found`, the state is
research-consistent, and before the first filter step the approved count is
still zero. -/
lemma steps_invariant (ls : List StepLabel) :
    ∀ (s : RealEstateState) (seen : Bool),
      researchConsistent s →
      s.properties_approved ≤ s.properties_found →
      (seen = false → s.properties_approved = 0) →
      noResAfterFilter seen ls = true →
      (runSteps s ls).properties_approved ≤ (runSteps s ls).properties_found := by
  induction ls with
  | nil => intro s seen h1 h2 _ _; exact h2
  | cons l ls ih =>
    intro s seen h1 h2 h3 h4
    cases l with
    | init c =>
      exact ih (initialize_search s c) seen
        (initialize_search_consistent s c h1) h2 (fun hv => h3 hv) h4
    | research raw =>
      have hseen : seen = false := by
        cases seen
        · rfl
        · simp [noResAfterFilter] at h4
      have h4' : noResAfterFilter seen ls = true := by
        rw [hseen] at h4 ⊢
        simpa [noResAfterFilter] using h4
      have h0 : s.properties_approved = 0 := h3 hseen
      refine ih (run_research s raw) seen
        (run_research_consistent s raw h1) ?_ ?_ h4'
      · rw [run_research_frame, h0]
        exact Nat.zero_le _
      · intro _
        rw [run_research_frame]
        exact h0
    | filter fb =>
      refine ih (filter_approved s fb) true
        (consistent_of_frame s _ (filter_approved_frame s fb).1
          (filter_approved_frame s fb).2 h1)
        (filter_approved_bound s fb h1 h2)
        (fun hv => absurd hv (by simp))
        ?_
      simpa [noResAfterFilter] using h4
    | retry =>
      exact ih (handle_retry s) seen (handle_retry_consistent s h1) h2
        (fun hv => h3 hv) h4
    | parallel c l2 =>
      refine ih (run_parallel_crews s c l2).state seen
        (consistent_of_frame s _ (parallel_frame s c l2).1
          (parallel_frame s c l2).2.2 h1) ?_ ?_ h4
      · rw [(parallel_frame s c l2).1, (parallel_frame s c l2).2.1]
        exact h2
      · intro hv
        rw [(parallel_frame s c l2).2.1]
        exact h3 hv
    | compile =>
      exact ih (compile_final_report s).1 seen h1 h2 (fun hv => h3 hv) h4

/-- Claim C9 (corrected — counterexample): re-running research after an
approval makes `properties_approved` (2) exceed `properties_found` (0): the
step sequence init → research (two listings) → filter (approve both) →
research (empty listing list) is a sequence of flow steps from the initial
state whose final state violates the claimed invariant. -/
theorem C9_counterexample :
    (runSteps initialState
        [.init { location := "Lagos" },
         .research "\x7b\"properties\": [\x7b\"id\":\"a\"\x7d, \x7b\"id\":\"b\"\x7d]\x7d",
         .filter "[\"a\", \"b\"]",
         .research "\x7b\"properties\": []\x7d"]).properties_approved = 2 ∧
    (runSteps initialState
        [.init { location := "Lagos" },
         .research "\x7b\"properties\": [\x7b\"id\":\"a\"\x7d, \x7b\"id\":\"b\"\x7d]\x7d",
         .filter "[\"a\", \"b\"]",
         .research "\x7b\"properties\": []\x7d"]).properties_found = 0 :=
  ⟨rfl, rfl⟩

/-- Claim C9 (corrected — amended): `properties_approved ≤ properties_found`
holds in every state reachable by a sequence of flow steps in which no
research step follows a filter step — the ordering the flow's listener wiring
guarantees within a run (research is triggered from `initialize_search` only,
before the approval gate). -/
theorem C9_amended_invariant (ls : List StepLabel)
    (h : noResAfterFilter false ls = true) :
    (runSteps initialState ls).properties_approved ≤
      (runSteps initialState ls).properties_found :=
  steps_invariant ls initialState false
    (fun raw n hr => by cases hr) (Nat.le_refl 0) (fun _ => rfl) h

theorem C9_amended_invariant_witness :
    noResAfterFilter false
      [.init { location := "Lagos" },
       .research "\x7b\"properties\": [\x7b\"id\":\"a\"\x7d]\x7d",
       .filter "[\"a\"]", .parallel "c" "l", .compile] = true ∧
    (runSteps initialState
      [.init { location := "Lagos" },
       .research "\x7b\"properties\": [\x7b\"id\":\"a\"\x7d]\x7d",
       .filter "[\"a\"]", .parallel "c" "l", .compile]).properties_approved ≤
    (runSteps initialState
      [.init { location := "Lagos" },
       .research "\x7b\"properties\": [\x7b\"id\":\"a\"\x7d]\x7d",
       .filter "[\"a\"]", .parallel "c" "l", .compile]).properties_found :=
  ⟨rfl, C9_amended_invariant _ rfl⟩

-- ===================== C10 =====================

/-- Claim C10 (corrected — counterexample): with
`research_results = {"properties": [5]}` (the key's array holds a non-object
entry) and `properties_approved = 3`, invalid-JSON feedback still resets
`approved_property_ids` to `[]`, but the recomputation aborts on
`(5).get("id")` (`AttributeError`), so `properties_approved` stays 3 — it
does not become 0 — and `run_parallel_crews` does not skip the crews. -/
theorem C10_counterexample :
    (filter_approved
      { initialState with
          research_results := some "\x7b\"properties\": [5]\x7d",
          properties_approved := 3 }
      "not json").approved_property_ids = JVal.arr [] ∧
    (filter_approved
      { initialState with
          research_results := some "\x7b\"properties\": [5]\x7d",
          properties_approved := 3 }
      "not json").properties_approved = 3 ∧
    (run_parallel_crews
      (filter_approved
        { initialState with
            research_results := some "\x7b\"properties\": [5]\x7d",
            properties_approved := 3 }
        "not json") "c" "l").invokedCall = true :=
  ⟨rfl, rfl, rfl⟩

lemma filterElems_empty_approved (xs : List JVal)
    (hobjs : ∀ x ∈ xs, ∃ gs, x = JVal.obj gs) :
    filterElems (.arr []) xs = .ok [] := by
  induction xs with
  | nil => rfl
  | cons x xs ih =>
    obtain ⟨gs, rfl⟩ := hobjs x (List.mem_cons_self x xs)
    have ih' := ih (fun y hy => hobjs y (List.mem_cons_of_mem _ hy))
    simp [filterElems, pyMem, ih']

/-- Claim C10 (corrected — amended): invalid-JSON feedback resets
`approved_property_ids` to the empty list; when `research_results` parses as
a JSON object whose selected `properties`/`listings` key holds an array of
JSON objects, `properties_approved` becomes 0 and `run_parallel_crews` skips
both crews.  (When the array holds a non-object entry the recomputation
aborts and the count keeps its prior value — see the counterexample.) -/
theorem C10_amended_invalid_feedback (s : RealEstateState)
    (fb raw : String) (fields : List (String × JVal)) (xs : List JVal)
    (c l : String)
    (hfb : loads fb = none)
    (hr : s.research_results = some raw)
    (hl : loads raw = some (.obj fields))
    (hk : lookupField fields
        (if fields.any (fun kv => kv.1 == "properties") then "properties"
         else "listings") = some (.arr xs))
    (hobjs : ∀ x ∈ xs, ∃ gs, x = JVal.obj gs) :
    (filter_approved s fb).approved_property_ids = JVal.arr [] ∧
    (filter_approved s fb).properties_approved = 0 ∧
    run_parallel_crews (filter_approved s fb) c l
      = ⟨filter_approved s fb, false, false⟩ := by
  have hany : fields.any (fun kv =>
      kv.1 == (if fields.any (fun kv => kv.1 == "properties")
        then "properties" else "listings")) = true :=
    lookupField_any fields _ _ hk
  have hpk : parseKeyed raw =
      .ok (.obj fields,
        some ((if fields.any (fun kv => kv.1 == "properties")
          then "properties" else "listings"), .arr xs)) := by
    simp [parseKeyed, hl, pyMem, pyIndex, hany, hk]
  have hfa : filterAttempt (.arr []) raw =
      .ok (some 0,
        dumps (.obj (objInsert fields
          (if fields.any (fun kv => kv.1 == "properties")
            then "properties" else "listings") (.arr [])))) := by
    simp [filterAttempt, hpk, pyElems, filterElems_empty_approved xs hobjs,
      pySetItem]
  have hstate : filter_approved s fb =
      { s with
          approved_property_ids := JVal.arr [],
          properties_approved := 0,
          filtered_research_results :=
            some (dumps (.obj (objInsert fields
              (if fields.any (fun kv => kv.1 == "properties")
                then "properties" else "listings") (.arr [])))) } := by
    unfold filter_approved
    rw [hfb]
    unfold filterStage2
    simp only [hr, hfa]
  refine ⟨by rw [hstate], by rw [hstate], ?_⟩
  unfold run_parallel_crews
  rw [hstate]
  simp

theorem C10_amended_invalid_feedback_witness :
    (filter_approved
      { initialState with
          research_results := some "\x7b\"properties\": [\x7b\"id\":\"a\"\x7d]\x7d",
          properties_approved := 1 }
      "not json").approved_property_ids = JVal.arr [] ∧
    (filter_approved
      { initialState with
          research_results := some "\x7b\"properties\": [\x7b\"id\":\"a\"\x7d]\x7d",
          properties_approved := 1 }
      "not json").properties_approved = 0 ∧
    run_parallel_crews
      (filter_approved
        { initialState with
            research_results := some "\x7b\"properties\": [\x7b\"id\":\"a\"\x7d]\x7d",
            properties_approved := 1 }
        "not json") "c" "l"
      = ⟨filter_approved
          { initialState with
              research_results := some "\x7b\"properties\": [\x7b\"id\":\"a\"\x7d]\x7d",
              properties_approved := 1 }
          "not json", false, false⟩ :=
  C10_amended_invalid_feedback _ "not json" _
    [("properties", .arr [.obj [("id", .str "a")]])] [.obj [("id", .str "a")]]
    "c" "l" rfl rfl rfl rfl
    (by intro x hx; simp at hx; exact ⟨_, hx⟩)

-- ===================== C4 / C5: get_call_result =====================

lemma le_five_numPolls (mw : Int) : mw ≤ 5 * (numPolls mw : Int) := by
  unfold numPolls
  omega

lemma five_lt_of_lt_numPolls (mw : Int) (n : Nat) (h : n < numPolls mw) :
    5 * (n : Int) < mw := by
  unfold numPolls at h
  omega

/-- When every status up to the timeout poll is non-terminal, the polling
loop returns the timeout payload carrying the last observed status. -/
lemma retellLoop_timeout (cd : Nat → CallData) (cid : String) (mw : Int) :
    ∀ j n, n + j = numPolls mw →
      (∀ k, k ≤ numPolls mw → isTerminal (cd k).call_status = false) →
      retellLoop (fun k => .returns (cd k)) cid mw (j + 1) n =
        .ok (timeoutPayload cid mw (cd (numPolls mw)).call_status) := by
  intro j
  induction j with
  | zero =>
    intro n hn hall
    have hn0 : n = numPolls mw := by omega
    subst hn0
    have ht := hall (numPolls mw) (le_refl _)
    have hle : mw ≤ poll_interval * ((numPolls mw : Nat) : Int) := by
      simpa [poll_interval] using le_five_numPolls mw
    simp [retellLoop, runVendor, ht, hle]
  | succ j ih =>
    intro n hn hall
    have hlt : n < numPolls mw := by omega
    have hnt := hall n (le_of_lt hlt)
    have h5 : ¬ (mw ≤ poll_interval * (n : Int)) := by
      simp only [poll_interval]
      exact not_le.mpr (five_lt_of_lt_numPolls mw n hlt)
    have hstep : retellLoop (fun k => .returns (cd k)) cid mw (j + 1 + 1) n =
        retellLoop (fun k => .returns (cd k)) cid mw (j + 1) (n + 1) := by
      simp [retellLoop, runVendor, hnt, h5]
    rw [hstep]
    exact ih (n + 1) (by omega) hall

/-- Claim C4 (confirmed): while the vendor keeps reporting a non-terminal
status through the whole wait budget, `get_call_result` (polling every
`poll_interval = 5` seconds) returns a `success=false` payload whose error
mentions the timeout and whose `last_status` carries the last observed
status. -/
theorem C4_timeout_payload (env : RetellEnv) (cd : Nat → CallData)
    (cid : String) (mw : Int)
    (hI : env.retellInstalled = true) (hK : envTruthy env.apiKey = true)
    (hall : ∀ k, k ≤ numPolls mw → isTerminal (cd k).call_status = false) :
    get_call_result env (fun k => .returns (cd k)) cid mw =
      .ok (timeoutPayload cid mw (cd (numPolls mw)).call_status) ∧
    jLookup (timeoutPayload cid mw (cd (numPolls mw)).call_status) "success" =
      some (.bool false) ∧
    jLookup (timeoutPayload cid mw (cd (numPolls mw)).call_status) "error" =
      some (.str ("Timeout waiting for call completion after "
        ++ toString mw ++ "s")) ∧
    jLookup (timeoutPayload cid mw (cd (numPolls mw)).call_status)
        "last_status" = some (.str (cd (numPolls mw)).call_status) ∧
    poll_interval = 5 := by
  have hclient : getRetellClient env = .ok () := by
    simp [getRetellClient, hI, hK]
  refine ⟨?_, rfl, rfl, rfl, rfl⟩
  have hloop := retellLoop_timeout cd cid mw (numPolls mw) 0 (by omega) hall
  simp [get_call_result, hclient, catchAll, hloop]

theorem C4_timeout_payload_witness :
    (∀ k, k ≤ numPolls 7 →
      isTerminal ((fun _ : Nat =>
        (⟨"ongoing", [], none, none, none, .obj [], .obj [], none⟩ : CallData))
          k).call_status = false) ∧
    get_call_result ⟨true, some "key", some "+1", some "i", some "n"⟩
        (fun k => .returns ((fun _ : Nat =>
          (⟨"ongoing", [], none, none, none, .obj [], .obj [], none⟩ : CallData)) k))
        "call_1" 7 =
      .ok (timeoutPayload "call_1" 7 "ongoing") :=
  ⟨fun _ _ => rfl,
   (C4_timeout_payload ⟨true, some "key", some "+1", some "i", some "n"⟩
      (fun _ => ⟨"ongoing", [], none, none, none, .obj [], .obj [], none⟩)
      "call_1" 7 rfl rfl (fun _ _ => rfl)).1⟩

/-- While the observed statuses stay non-terminal and the budget is not yet
exhausted, the polling loop just advances. -/
lemma retellLoop_skip (cd : Nat → CallData) (cid : String) (mw : Int) :
    ∀ j f n,
      (∀ i, n ≤ i → i < n + j →
        isTerminal (cd i).call_status = false ∧ 5 * (i : Int) < mw) →
      retellLoop (fun k => .returns (cd k)) cid mw (j + f + 1) n =
        retellLoop (fun k => .returns (cd k)) cid mw (f + 1) (n + j) := by
  intro j
  induction j with
  | zero => intro f n _; simp
  | succ j ih =>
    intro f n h
    have h0 := h n (le_refl n) (by omega)
    have h5 : ¬ (mw ≤ poll_interval * (n : Int)) := by
      simp only [poll_interval]
      exact not_le.mpr h0.2
    have hstep : retellLoop (fun k => .returns (cd k)) cid mw (j + 1 + f + 1) n =
        retellLoop (fun k => .returns (cd k)) cid mw (j + 1 + f) (n + 1) := by
      simp [retellLoop, runVendor, h0.1, h5]
    rw [hstep]
    have harith : j + 1 + f = j + f + 1 := by omega
    rw [harith,
      ih f (n + 1) (fun i hi1 hi2 => h i (by omega) (by omega))]
    congr 1
    omega

/-- Claim C5 (corrected — counterexample): a call that is already `ended` at
the first poll but has an empty transcript yields `success=true` with a
`null` transcript field, not a non-null one. -/
theorem C5_counterexample :
    get_call_result ⟨true, some "key", some "+1", some "i", some "n"⟩
        (fun _ => .returns
          ⟨"ended", [], none, none, none, .obj [], .obj [], none⟩)
        "call_1" 300 =
      .ok (successCallPayload "call_1"
        ⟨"ended", [], none, none, none, .obj [], .obj [], none⟩) ∧
    jLookup (successCallPayload "call_1"
        ⟨"ended", [], none, none, none, .obj [], .obj [], none⟩) "success" =
      some (.bool true) ∧
    jLookup (successCallPayload "call_1"
        ⟨"ended", [], none, none, none, .obj [], .obj [], none⟩) "transcript" =
      some JVal.null :=
  ⟨rfl, rfl, rfl⟩

/-- Claim C5 (corrected — amended): when the vendor status reaches `ended`
before the wait budget runs out, `get_call_result` returns `success=true`;
the transcript field is non-null provided the vendor supplied at least one
utterance (with no utterances it is `null`, see the counterexample). -/
theorem C5_amended_ended_success (env : RetellEnv) (cd : Nat → CallData)
    (cid : String) (mw : Int) (k : Nat)
    (hI : env.retellInstalled = true) (hK : envTruthy env.apiKey = true)
    (hpre : ∀ i, i < k →
      isTerminal (cd i).call_status = false ∧ 5 * (i : Int) < mw)
    (hend : (cd k).call_status = "ended")
    (ht : (cd k).transcript ≠ []) :
    get_call_result env (fun i => .returns (cd i)) cid mw =
      .ok (successCallPayload cid (cd k)) ∧
    jLookup (successCallPayload cid (cd k)) "success" = some (.bool true) ∧
    ∃ t, jLookup (successCallPayload cid (cd k)) "transcript" =
      some (.str t) := by
  have hclient : getRetellClient env = .ok () := by
    simp [getRetellClient, hI, hK]
  have hk_le : k ≤ numPolls mw := by
    cases k with
    | zero => exact Nat.zero_le _
    | succ k' =>
      have h5 := (hpre k' (Nat.lt_succ_self k')).2
      unfold numPolls
      omega
  have hterm : isTerminal (cd k).call_status = true := by
    rw [hend]
    rfl
  constructor
  · have hfuel : numPolls mw + 1 = k + (numPolls mw - k) + 1 := by omega
    have hskip := retellLoop_skip cd cid mw k (numPolls mw - k) 0
      (fun i hi1 hi2 => hpre i (by omega))
    have hstop : retellLoop (fun i => .returns (cd i)) cid mw
        ((numPolls mw - k) + 1) k = .ok (successCallPayload cid (cd k)) := by
      simp [retellLoop, runVendor, hterm]
    simp [get_call_result, hclient, catchAll, hfuel, hskip, hstop]
  · constructor
    · rfl
    · generalize cd k = cdk at ht ⊢
      obtain ⟨st, tr, sts, ets, ru, md, cv, dr⟩ := cdk
      rcases tr with _ | ⟨u, us⟩
      · exact absurd rfl ht
      · exact ⟨String.intercalate "\n" (List.map fmtUtterance (u :: us)), rfl⟩

theorem C5_amended_ended_success_witness :
    ((⟨"ended", [⟨some "agent", some "hello", some 0⟩], none, none, none,
        .obj [], .obj [], none⟩ : CallData).call_status = "ended") ∧
    get_call_result ⟨true, some "key", some "+1", some "i", some "n"⟩
        (fun _ => .returns
          ⟨"ended", [⟨some "agent", some "hello", some 0⟩], none, none, none,
            .obj [], .obj [], none⟩) "call_1" 300 =
      .ok (successCallPayload "call_1"
        ⟨"ended", [⟨some "agent", some "hello", some 0⟩], none, none, none,
          .obj [], .obj [], none⟩) :=
  ⟨rfl,
   (C5_amended_ended_success ⟨true, some "key", some "+1", some "i", some "n"⟩
      (fun _ => ⟨"ended", [⟨some "agent", some "hello", some 0⟩], none, none,
        none, .obj [], .obj [], none⟩)
      "call_1" 300 0 rfl rfl (fun i hi => absurd hi (Nat.not_lt_zero i))
      rfl (by simp)).1⟩

-- ===================== C6: extraction tool dispatch =====================

/-- Claim C6 (corrected — counterexample): a vendor response with status
`COMPLETED` but no `result` value yields a failure payload ("Run completed
but no result data returned"), not the success payload the claim promises
for every `COMPLETED` response. -/
theorem C6_counterexample :
    tinyFishRun (some "key")
        (.returns (.obj [("status", .str "COMPLETED")])) "http://x" "g"
        false none =
      .ok (.obj [("success", .bool false),
        ("error", .str "Run completed but no result data returned"),
        ("url", .str "http://x")]) ∧
    jLookup (.obj [("success", .bool false),
        ("error", .str "Run completed but no result data returned"),
        ("url", .str "http://x")]) "success" = some (.bool false) :=
  ⟨rfl, rfl⟩

/-- Claim C6 (corrected — amended): the tool dispatches on the response's
`status`: `COMPLETED` with a present non-null `result` gives the success
payload with the data; `COMPLETED` with an absent or null `result` gives a
failure payload noting the missing data; `FAILED` gives a failure payload
with the vendor's error message; any other status gives a failure payload
noting the unexpected status. -/
theorem C6_amended_status_dispatch (apiKey : Option String)
    (fields : List (String × JVal)) (url goal : String) (st : Bool)
    (pc : Option String) (hkey : envTruthy apiKey = true) :
    (jvalIsStrEq (tfStatus fields) "COMPLETED" = true →
      (∀ r, lookupField fields "result" = some r → r ≠ .null →
        tinyFishRun apiKey (.returns (.obj fields)) url goal st pc =
          .ok (.obj [("success", .bool true), ("data", r),
            ("url", .str url)])) ∧
      (lookupField fields "result" = none ∨
          lookupField fields "result" = some .null →
        tinyFishRun apiKey (.returns (.obj fields)) url goal st pc =
          .ok (.obj [("success", .bool false),
            ("error", .str "Run completed but no result data returned"),
            ("url", .str url)]))) ∧
    (jvalIsStrEq (tfStatus fields) "COMPLETED" = false →
      jvalIsStrEq (tfStatus fields) "FAILED" = true →
      tinyFishRun apiKey (.returns (.obj fields)) url goal st pc =
        .ok (.obj [("success", .bool false),
          ("error", .str ("TinyFish run failed: " ++ tfErrMsg fields)),
          ("url", .str url)])) ∧
    (jvalIsStrEq (tfStatus fields) "COMPLETED" = false →
      jvalIsStrEq (tfStatus fields) "FAILED" = false →
      tinyFishRun apiKey (.returns (.obj fields)) url goal st pc =
        .ok (.obj [("success", .bool false),
          ("error", .str ("Unexpected run status: " ++ pyStr (tfStatus fields))),
          ("url", .str url)])) := by
  refine ⟨fun hc => ⟨fun r hr hrn => ?_, fun hn => ?_⟩,
    fun hc hf => ?_, fun hc hf => ?_⟩
  · cases r <;>
      first
      | exact absurd rfl hrn
      | simp [tinyFishRun, hkey, hc, hr]
  · rcases hn with hn | hn <;> simp [tinyFishRun, hkey, hc, hn]
  · simp [tinyFishRun, hkey, hc, hf]
  · simp [tinyFishRun, hkey, hc, hf]

theorem C6_amended_status_dispatch_witness :
    envTruthy (some "key") = true ∧
    tinyFishRun (some "key")
        (.returns (.obj [("status", .str "FAILED"),
          ("error", .obj [("message", .str "boom")])])) "http://x" "g"
        false none =
      .ok (.obj [("success", .bool false),
        ("error", .str ("TinyFish run failed: "
          ++ tfErrMsg [("status", .str "FAILED"),
              ("error", .obj [("message", .str "boom")])])),
        ("url", .str "http://x")]) :=
  ⟨rfl,
   (C6_amended_status_dispatch (some "key")
      [("status", .str "FAILED"), ("error", .obj [("message", .str "boom")])]
      "http://x" "g" false none rfl).2.1 rfl rfl⟩

-- ===================== C1: tool failure policy =====================

lemma okPayload_head (r : Except PyExc JVal) (b : Bool)
    (fs : List (String × JVal))
    (h : r = .ok (.obj (("success", JVal.bool b) :: fs))) : isOkPayload r :=
  ⟨_, b, h, rfl⟩

lemma failurePayload_head (r : Except PyExc JVal) (m : String)
    (fs : List (String × JVal))
    (h : r = .ok (.obj (("success", JVal.bool false)
      :: ("error", JVal.str m) :: fs))) :
    isFailurePayload r :=
  ⟨_, m, h, rfl, rfl⟩

lemma failurePayload_cid (r : Except PyExc JVal) (m : String) (c : JVal)
    (fs : List (String × JVal))
    (h : r = .ok (.obj (("success", JVal.bool false) :: ("call_id", c)
      :: ("error", JVal.str m) :: fs))) :
    isFailurePayload r :=
  ⟨_, m, h, rfl, rfl⟩

lemma make_inspection_ok (env : RetellEnv) (v : VendorCall CreateCallResp)
    (tn pid pa pp uq : String) (cn : Option String) :
    isOkPayload (make_inspection_call env v tn pid pa pp uq cn) := by
  cases hcl : getRetellClient env with
  | error e =>
    exact okPayload_head _ false _ (by simp [make_inspection_call, catchAll, hcl]; try (first | rfl | exact ⟨rfl, rfl⟩))
  | ok u =>
    cases hfn : envTruthy env.fromNumber with
    | false =>
      exact okPayload_head _ false _
        (by simp [make_inspection_call, catchAll, hcl, hfn]; try (first | rfl | exact ⟨rfl, rfl⟩))
    | true =>
      cases hia : envTruthy env.inspectorAgentId with
      | false =>
        exact okPayload_head _ false _
          (by simp [make_inspection_call, catchAll, hcl, hfn, hia]; try (first | rfl | exact ⟨rfl, rfl⟩))
      | true =>
        cases v with
        | raises e =>
          exact okPayload_head _ false _
            (by simp [make_inspection_call, catchAll, runVendor, hcl, hfn, hia]; try (first | rfl | exact ⟨rfl, rfl⟩))
        | returns resp =>
          exact okPayload_head _ true _
            (by simp [make_inspection_call, catchAll, runVendor, hcl, hfn, hia]; try (first | rfl | exact ⟨rfl, rfl⟩))

lemma make_inspection_raises (env : RetellEnv) (e : PyExc)
    (tn pid pa pp uq : String) (cn : Option String) :
    isFailurePayload (make_inspection_call env (.raises e) tn pid pa pp uq cn) := by
  cases hcl : getRetellClient env with
  | error e2 =>
    exact failurePayload_head _ e2.msg _
      (by simp [make_inspection_call, catchAll, hcl]; try (first | rfl | exact ⟨rfl, rfl⟩))
  | ok u =>
    cases hfn : envTruthy env.fromNumber with
    | false =>
      exact failurePayload_head _ _ _
        (by simp [make_inspection_call, catchAll, hcl, hfn]; try (first | rfl | exact ⟨rfl, rfl⟩))
    | true =>
      cases hia : envTruthy env.inspectorAgentId with
      | false =>
        exact failurePayload_head _ _ _
          (by simp [make_inspection_call, catchAll, hcl, hfn, hia]; try (first | rfl | exact ⟨rfl, rfl⟩))
      | true =>
        exact failurePayload_head _ e.msg _
          (by simp [make_inspection_call, catchAll, runVendor, hcl, hfn, hia]; try (first | rfl | exact ⟨rfl, rfl⟩))

lemma make_negotiation_ok (env : RetellEnv) (v : VendorCall CreateCallResp)
    (tn pid pa ev ib : String) (cn : Option String) :
    isOkPayload (make_negotiation_call env v tn pid pa ev ib cn) := by
  cases hcl : getRetellClient env with
  | error e =>
    exact okPayload_head _ false _ (by simp [make_negotiation_call, catchAll, hcl]; try (first | rfl | exact ⟨rfl, rfl⟩))
  | ok u =>
    cases hfn : envTruthy env.fromNumber with
    | false =>
      exact okPayload_head _ false _
        (by simp [make_negotiation_call, catchAll, hcl, hfn]; try (first | rfl | exact ⟨rfl, rfl⟩))
    | true =>
      cases hia : envTruthy env.negotiatorAgentId with
      | false =>
        exact okPayload_head _ false _
          (by simp [make_negotiation_call, catchAll, hcl, hfn, hia]; try (first | rfl | exact ⟨rfl, rfl⟩))
      | true =>
        cases v with
        | raises e =>
          exact okPayload_head _ false _
            (by simp [make_negotiation_call, catchAll, runVendor, hcl, hfn, hia]; try (first | rfl | exact ⟨rfl, rfl⟩))
        | returns resp =>
          exact okPayload_head _ true _
            (by simp [make_negotiation_call, catchAll, runVendor, hcl, hfn, hia]; try (first | rfl | exact ⟨rfl, rfl⟩))

lemma make_negotiation_raises (env : RetellEnv) (e : PyExc)
    (tn pid pa ev ib : String) (cn : Option String) :
    isFailurePayload (make_negotiation_call env (.raises e) tn pid pa ev ib cn) := by
  cases hcl : getRetellClient env with
  | error e2 =>
    exact failurePayload_head _ e2.msg _
      (by simp [make_negotiation_call, catchAll, hcl]; try (first | rfl | exact ⟨rfl, rfl⟩))
  | ok u =>
    cases hfn : envTruthy env.fromNumber with
    | false =>
      exact failurePayload_head _ _ _
        (by simp [make_negotiation_call, catchAll, hcl, hfn]; try (first | rfl | exact ⟨rfl, rfl⟩))
    | true =>
      cases hia : envTruthy env.negotiatorAgentId with
      | false =>
        exact failurePayload_head _ _ _
          (by simp [make_negotiation_call, catchAll, hcl, hfn, hia]; try (first | rfl | exact ⟨rfl, rfl⟩))
      | true =>
        exact failurePayload_head _ e.msg _
          (by simp [make_negotiation_call, catchAll, runVendor, hcl, hfn, hia]; try (first | rfl | exact ⟨rfl, rfl⟩))

/-- Every outcome of the polling loop is either a payload carrying a boolean
`success` field or a raised exception (to be caught by the tool's catch-all
handler). -/
lemma retellLoop_shape (vendor : Nat → VendorCall CallData) (cid : String)
    (mw : Int) :
    ∀ fuel n,
      (∃ p b, retellLoop vendor cid mw fuel n = .ok p ∧
        jLookup p "success" = some (.bool b)) ∨
      (∃ e, retellLoop vendor cid mw fuel n = .error e) := by
  intro fuel
  induction fuel with
  | zero => intro n; exact Or.inl ⟨_, false, rfl, rfl⟩
  | succ fuel ih =>
    intro n
    cases hv : vendor n with
    | raises e => exact Or.inr ⟨e, by simp [retellLoop, runVendor, hv]⟩
    | returns cd =>
      cases hterm : isTerminal cd.call_status with
      | true =>
        exact Or.inl ⟨successCallPayload cid cd, true,
          by simp [retellLoop, runVendor, hv, hterm], rfl⟩
      | false =>
        by_cases hto : mw ≤ poll_interval * (n : Int)
        · exact Or.inl ⟨timeoutPayload cid mw cd.call_status, false,
            by simp [retellLoop, runVendor, hv, hterm, hto], rfl⟩
        · rcases ih (n + 1) with ⟨p, b, hpb, hl⟩ | ⟨e, he⟩
          · exact Or.inl ⟨p, b,
              by simp [retellLoop, runVendor, hv, hterm, hto, hpb], hl⟩
          · exact Or.inr ⟨e,
              by simp [retellLoop, runVendor, hv, hterm, hto, he]⟩

lemma get_call_result_ok (env : RetellEnv) (v : Nat → VendorCall CallData)
    (cid : String) (mw : Int) :
    isOkPayload (get_call_result env v cid mw) := by
  cases hcl : getRetellClient env with
  | error e =>
    exact okPayload_head _ false _ (by simp [get_call_result, catchAll, hcl]; try (first | rfl | exact ⟨rfl, rfl⟩))
  | ok u =>
    rcases retellLoop_shape v cid mw (numPolls mw + 1) 0 with
      ⟨p, b, hpb, hl⟩ | ⟨e, he⟩
    · exact ⟨p, b, by simp [get_call_result, catchAll, hcl, hpb], hl⟩
    · exact okPayload_head _ false _
        (by simp [get_call_result, catchAll, hcl, he]; try (first | rfl | exact ⟨rfl, rfl⟩))

lemma get_call_result_raises (env : RetellEnv) (e : PyExc) (cid : String)
    (mw : Int) :
    isFailurePayload (get_call_result env (fun _ => .raises e) cid mw) := by
  cases hcl : getRetellClient env with
  | error e2 =>
    exact failurePayload_cid _ e2.msg _ _
      (by simp [get_call_result, catchAll, hcl]; try (first | rfl | exact ⟨rfl, rfl⟩))
  | ok u =>
    have hloop : retellLoop (fun _ => VendorCall.raises e) cid mw
        (numPolls mw + 1) 0 = .error e := by
      simp [retellLoop, runVendor]
    exact failurePayload_cid _ e.msg _ _
      (by simp [get_call_result, catchAll, hcl, hloop]; try (first | rfl | exact ⟨rfl, rfl⟩))

lemma check_call_status_ok (env : RetellEnv) (v : VendorCall CallData)
    (cid : String) : isOkPayload (check_call_status env v cid) := by
  cases hcl : getRetellClient env with
  | error e =>
    exact okPayload_head _ false _ (by simp [check_call_status, catchAll, hcl]; try (first | rfl | exact ⟨rfl, rfl⟩))
  | ok u =>
    cases v with
    | raises e =>
      exact okPayload_head _ false _
        (by simp [check_call_status, catchAll, runVendor, hcl]; try (first | rfl | exact ⟨rfl, rfl⟩))
    | returns cd =>
      exact okPayload_head _ true _
        (by simp [check_call_status, catchAll, runVendor, hcl]; try (first | rfl | exact ⟨rfl, rfl⟩))

lemma check_call_status_raises (env : RetellEnv) (e : PyExc) (cid : String) :
    isFailurePayload (check_call_status env (.raises e) cid) := by
  cases hcl : getRetellClient env with
  | error e2 =>
    exact failurePayload_cid _ e2.msg _ _
      (by simp [check_call_status, catchAll, hcl]; try (first | rfl | exact ⟨rfl, rfl⟩))
  | ok u =>
    exact failurePayload_cid _ e.msg _ _
      (by simp [check_call_status, catchAll, runVendor, hcl]; try (first | rfl | exact ⟨rfl, rfl⟩))

lemma tinyFishRun_reqexc (apiKey : Option String) (e : PyExc)
    (url goal : String) (st : Bool) (pc : Option String)
    (hreq : e.isReqExc = true) :
    isFailurePayload (tinyFishRun apiKey (.raises e) url goal st pc) := by
  cases hk : envTruthy apiKey with
  | false => exact failurePayload_head _ _ _ (by simp [tinyFishRun, hk]; try (first | rfl | exact ⟨rfl, rfl⟩))
  | true => exact failurePayload_head _ _ _ (by simp [tinyFishRun, hk, hreq]; try (first | rfl | exact ⟨rfl, rfl⟩))

lemma tinyFishRun_obj (apiKey : Option String)
    (fields : List (String × JVal)) (url goal : String) (st : Bool)
    (pc : Option String) :
    isOkPayload (tinyFishRun apiKey (.returns (.obj fields)) url goal st pc) := by
  cases hk : envTruthy apiKey with
  | false => exact okPayload_head _ false _ (by simp [tinyFishRun, hk]; try (first | rfl | exact ⟨rfl, rfl⟩))
  | true =>
    by_cases hc : jvalIsStrEq (tfStatus fields) "COMPLETED" = true
    · cases hres : lookupField fields "result" with
      | none =>
        exact okPayload_head _ false _ (by simp [tinyFishRun, hk, hc, hres]; try (first | rfl | exact ⟨rfl, rfl⟩))
      | some r =>
        cases r with
        | null =>
          exact okPayload_head _ false _ (by simp [tinyFishRun, hk, hc, hres]; try (first | rfl | exact ⟨rfl, rfl⟩))
        | bool b =>
          exact okPayload_head _ true _ (by simp [tinyFishRun, hk, hc, hres]; try (first | rfl | exact ⟨rfl, rfl⟩))
        | num i =>
          exact okPayload_head _ true _ (by simp [tinyFishRun, hk, hc, hres]; try (first | rfl | exact ⟨rfl, rfl⟩))
        | str s =>
          exact okPayload_head _ true _ (by simp [tinyFishRun, hk, hc, hres]; try (first | rfl | exact ⟨rfl, rfl⟩))
        | arr xs =>
          exact okPayload_head _ true _ (by simp [tinyFishRun, hk, hc, hres]; try (first | rfl | exact ⟨rfl, rfl⟩))
        | obj gs =>
          exact okPayload_head _ true _ (by simp [tinyFishRun, hk, hc, hres]; try (first | rfl | exact ⟨rfl, rfl⟩))
    · have hc' : jvalIsStrEq (tfStatus fields) "COMPLETED" = false :=
        eq_false_of_ne_true hc
      by_cases hf : jvalIsStrEq (tfStatus fields) "FAILED" = true
      · exact okPayload_head _ false _ (by simp [tinyFishRun, hk, hc', hf]; try (first | rfl | exact ⟨rfl, rfl⟩))
      · have hf' : jvalIsStrEq (tfStatus fields) "FAILED" = false :=
          eq_false_of_ne_true hf
        exact okPayload_head _ false _ (by simp [tinyFishRun, hk, hc', hf']; try (first | rfl | exact ⟨rfl, rfl⟩))

/-- Claim C1 (corrected — counterexample): a vendor response whose decoded
body is a JSON array (a legitimate "response shape") makes the Extraction
Tool raise `AttributeError` on `data.get`, which is not caught by the
`RequestException` handler and escapes the tool boundary. -/
theorem C1_counterexample :
    tinyFishRun (some "key") (.returns (.arr [])) "http://x" "g" false none =
      .error ⟨"AttributeError: object has no attribute get", false⟩ := rfl

/-- Claim C1 (corrected — amended): the four Call Tools return a JSON payload
with a boolean `success` field for every vendor behaviour, and a
`success=false` payload with a string `error` field whenever the vendor
raises, missing configuration included — no exception escapes them.  The
Extraction Tool does the same for every vendor exception of the
`RequestException` class and for every JSON-object response body; an
exception outside that class, or a non-object body, escapes it (see the
counterexample). -/
theorem C1_amended_no_escape :
    (∀ (env : RetellEnv) (v : VendorCall CreateCallResp)
        (tn pid pa pp uq : String) (cn : Option String),
      isOkPayload (make_inspection_call env v tn pid pa pp uq cn)) ∧
    (∀ (env : RetellEnv) (e : PyExc) (tn pid pa pp uq : String)
        (cn : Option String),
      isFailurePayload (make_inspection_call env (.raises e) tn pid pa pp uq cn)) ∧
    (∀ (env : RetellEnv) (v : VendorCall CreateCallResp)
        (tn pid pa ev ib : String) (cn : Option String),
      isOkPayload (make_negotiation_call env v tn pid pa ev ib cn)) ∧
    (∀ (env : RetellEnv) (e : PyExc) (tn pid pa ev ib : String)
        (cn : Option String),
      isFailurePayload (make_negotiation_call env (.raises e) tn pid pa ev ib cn)) ∧
    (∀ (env : RetellEnv) (v : Nat → VendorCall CallData) (cid : String)
        (mw : Int),
      isOkPayload (get_call_result env v cid mw)) ∧
    (∀ (env : RetellEnv) (e : PyExc) (cid : String) (mw : Int),
      isFailurePayload (get_call_result env (fun _ => .raises e) cid mw)) ∧
    (∀ (env : RetellEnv) (v : VendorCall CallData) (cid : String),
      isOkPayload (check_call_status env v cid)) ∧
    (∀ (env : RetellEnv) (e : PyExc) (cid : String),
      isFailurePayload (check_call_status env (.raises e) cid)) ∧
    (∀ (apiKey : Option String) (e : PyExc) (url goal : String) (st : Bool)
        (pc : Option String),
      e.isReqExc = true →
      isFailurePayload (tinyFishRun apiKey (.raises e) url goal st pc)) ∧
    (∀ (apiKey : Option String) (fields : List (String × JVal))
        (url goal : String) (st : Bool) (pc : Option String),
      isOkPayload (tinyFishRun apiKey (.returns (.obj fields)) url goal st pc)) :=
  ⟨make_inspection_ok, make_inspection_raises, make_negotiation_ok,
   make_negotiation_raises, get_call_result_ok, get_call_result_raises,
   check_call_status_ok, check_call_status_raises,
   fun k e u g s p h => tinyFishRun_reqexc k e u g s p h, tinyFishRun_obj⟩

theorem C1_amended_no_escape_witness :
    (⟨"conn refused", true⟩ : PyExc).isReqExc = true ∧
    isFailurePayload (tinyFishRun (some "key")
      (.raises ⟨"conn refused", true⟩) "http://x" "g" false none) :=
  ⟨rfl,
   C1_amended_no_escape.2.2.2.2.2.2.2.2.1 (some "key") ⟨"conn refused", true⟩
     "http://x" "g" false none rfl⟩

end PropertyAI
